import Mathlib

/-!
# Shallow embedding of the dmarc-analyzer backend

Each definition below mirrors one function of the Python source tree:

* `dmarc_parser.py`: `extract_attachment` and the per-record summary loop of
  `parse_dmarc_xml`;
* `dmarc_ingest.py`: `is_dmarc_email`, `store_dmarc_report` and the
  per-message loop of `process_dmarc_ingestion`;
* `rate_limiter.py`: `IMAPRateLimiter._calculate_backoff_time` and
  `record_attempt`;
* `crypto.py`: `CredentialEncryption._get_key_by_id` and
  `decrypt_credential`;
* `analysis_engine.py`: the `DMARCAnalyzer` issue detectors,
  `_calculate_health_score`, `_determine_analysis_status` and
  `analyze_domain_reports`.

External libraries (the regex engine, `zipfile`, `gzip`, AES-GCM, the
database client, DNS) are modelled as explicit function parameters or as
`Except`/`Option`-valued inputs; a Python exception is an `Except.error`,
and Python's implicit `None` return is `Option.none`.  Machine reals do not
occur: all Python arithmetic here is exact `int`/fraction arithmetic, so
`ℤ` and `ℚ` are used, with `pyInt` for Python's truncating `int()`.
-/

namespace DmarcAnalyzer

/-! ## Python string and bytes primitives

The Lean core `String` functions do not reduce in the kernel, so the few
string operations the source uses (`startswith`, `endswith`, `lower`,
`in`, `split`, `rstrip`, `strip`, `title`) are re-implemented structurally
over `List Char`. -/

/-- Byte strings are modelled as lists of byte values. -/
abbrev Bytes := List Nat

/-- Python `bytes.startswith`. -/
def bytesStartsWith (s t : Bytes) : Bool :=
  s.take t.length == t

/-- Python `str.startswith`. -/
def strStartsWith (s t : String) : Bool :=
  s.data.take t.data.length == t.data

/-- Python `str.endswith`. -/
def strEndsWith (s t : String) : Bool :=
  s.data.drop (s.data.length - t.data.length) == t.data

/-- ASCII lower-casing of one character (the source only ever lower-cases
ASCII header and filename text). -/
def pyCharLower (c : Char) : Char :=
  if 'A' ≤ c ∧ c ≤ 'Z' then Char.ofNat (c.toNat + 32) else c

/-- ASCII upper-casing of one character. -/
def pyCharUpper (c : Char) : Char :=
  if 'a' ≤ c ∧ c ≤ 'z' then Char.ofNat (c.toNat - 32) else c

/-- Python `str.lower` (ASCII fragment). -/
def pyLower (s : String) : String :=
  ⟨s.data.map pyCharLower⟩

/-- Whether a character is an ASCII letter. -/
def isAsciiAlpha (c : Char) : Bool :=
  ('a' ≤ c ∧ c ≤ 'z') ∨ ('A' ≤ c ∧ c ≤ 'Z')

/-- Helper for `pyTitle`: the flag says whether the previous character was
a letter. -/
def pyTitleAux : Bool → List Char → List Char
  | _, [] => []
  | prev, c :: cs =>
      if isAsciiAlpha c then
        (if prev then pyCharLower c else pyCharUpper c) :: pyTitleAux true cs
      else
        c :: pyTitleAux false cs

/-- Python `str.title` (ASCII fragment). -/
def pyTitle (s : String) : String :=
  ⟨pyTitleAux false s.data⟩

/-- `needle` occurs as a contiguous run inside `hay` (Python `in` on
strings). -/
def listIsInfixOf [BEq α] (needle : List α) : List α → Bool
  | [] => needle.isEmpty
  | x :: xs => ((x :: xs).take needle.length == needle) || listIsInfixOf needle xs

/-- Python `pat in s` for strings. -/
def strContains (s pat : String) : Bool :=
  listIsInfixOf pat.data s.data

/-- Fuel-indexed worker for `pySplit`. -/
def pySplitAux [BEq α] (pat : List α) : ℕ → List α → List α → List (List α)
  | 0, rest, cur => [cur.reverse ++ rest]
  | _ + 1, [], cur => [cur.reverse]
  | fuel + 1, x :: xs, cur =>
      if (x :: xs).take pat.length == pat then
        cur.reverse :: pySplitAux pat fuel ((x :: xs).drop pat.length) []
      else
        pySplitAux pat fuel xs (x :: cur)

/-- Python `s.split(pat)` for a non-empty literal separator. -/
def pySplit (s pat : String) : List String :=
  (pySplitAux pat.data (s.data.length + 1) s.data []).map (fun l => ⟨l⟩)

/-- Python `s.rstrip(c)` for a single strip character. -/
def pyRstripChar (s : String) (c : Char) : String :=
  ⟨(s.data.reverse.dropWhile (fun x => x == c)).reverse⟩

/-- Python `s.strip()` (the source only ever strips plain spaces here). -/
def pyStrip (s : String) : String :=
  ⟨(s.data.dropWhile (fun x => x == ' ')).reverse.dropWhile (fun x => x == ' ') |>.reverse⟩

/-- Python truthiness of an optional string: `None` and `''` are falsy. -/
def optStrTruthy (o : Option String) : Bool :=
  !(o.getD "").data.isEmpty

/-- Python's truncating `int()` conversion on an exact fraction: floor for
non-negative values, ceiling for negative ones (truncation toward zero). -/
def pyInt (q : ℚ) : ℤ :=
  if 0 ≤ q then ⌊q⌋ else ⌈q⌉

/-- Python `round(x, 2)` modelled as exact decimal rounding, ties to even
(the source only displays this value; no verified property depends on the
tie-breaking of the underlying binary floats). -/
def pyRoundHalfEven (q : ℚ) : ℤ :=
  if q - ⌊q⌋ < 1 / 2 then ⌊q⌋
  else if 1 / 2 < q - ⌊q⌋ then ⌊q⌋ + 1
  else if Even ⌊q⌋ then ⌊q⌋ else ⌊q⌋ + 1

/-- `round(q, 2)`. -/
def pyRound2 (q : ℚ) : ℚ :=
  (pyRoundHalfEven (q * 100) : ℚ) / 100

/-- Render `⌊q⌋` as text; stands in for Python's `f"{q:.1f}"` in log-style
message strings whose numeric tail no property ever inspects (the only
consumers substring-match on the fixed prefix text). -/
def pyFormatRate (q : ℚ) : String :=
  toString (⌊q⌋ : ℤ)

/-! ## Report Parser (`dmarc_parser.py`)

`parse_record` produces one dictionary per `<record>` element; optional
XML fields resolve to `None`, and `count` falls back to `1`
(`safe_find_int(row, 'count', 1)`).  XML decoding itself is external to
the verified properties; the summary loop of `parse_dmarc_xml`
(lines 59-85) is embedded over the list of parsed records. -/

/-- One record dictionary as built by `parse_record`. -/
structure DmarcRecord where
  source_ip : Option String := none
  count : ℤ := 1
  disposition : Option String := none
  dkim_result : Option String := none
  spf_result : Option String := none
  header_from : Option String := none
  envelope_from : Option String := none
  envelope_to : Option String := none
  dkim_domain : Option String := none
  dkim_selector : Option String := none
  spf_domain : Option String := none
deriving DecidableEq, Repr

/-- The DMARC pass test of the summary loop of `parse_dmarc_xml`
(lines 72-75): `dkim_result == 'pass' or spf_result == 'pass'`. -/
def recordPasses (r : DmarcRecord) : Bool :=
  r.dkim_result == some "pass" || r.spf_result == some "pass"

/-- One iteration of the summary loop of `parse_dmarc_xml` (lines 64-78).
The accumulator is `(total_records, pass_count, fail_count)`. -/
def summaryStep (acc : ℤ × ℤ × ℤ) (r : DmarcRecord) : ℤ × ℤ × ℤ :=
  if recordPasses r then (acc.1 + r.count, acc.2.1 + r.count, acc.2.2)
  else (acc.1 + r.count, acc.2.1, acc.2.2 + r.count)

/-- `(total_records, pass_count, fail_count)` as computed by
`parse_dmarc_xml` over its parsed records. -/
def dmarc_summary (records : List DmarcRecord) : ℤ × ℤ × ℤ :=
  records.foldl summaryStep (0, 0, 0)

/-! ## Report Decoder (`extract_attachment`, `dmarc_parser.py` lines 11-31)

The `zipfile` and `gzip` libraries are passed in as functions: `zipOpen`
returns the archive's `(name, content)` entries, or `none` when
`ZipFile`/`read` raises; `gunzip` returns the inflated bytes or `none`
when `gzip.decompress` raises.  The result is `Option Bytes`: `some bs`
is a `bytes` return value, `none` is the implicit Python `None` returned
when the zip branch finds no entry named `*.xml` and control falls off
the end of the `try` block. -/

def extract_attachment (zipOpen : Bytes → Option (List (String × Bytes)))
    (gunzip : Bytes → Option Bytes)
    (payload : Bytes) (filename : Option String) : Option Bytes :=
  if (filename.elim false (fun f => strEndsWith f ".zip")) ||
      bytesStartsWith payload [0x50, 0x4B] then
    match zipOpen payload with
    | none => some payload
    | some entries =>
        match entries.find? (fun e => strEndsWith e.1 ".xml") with
        | some e => some e.2
        | none => none
  else if (filename.elim false (fun f => strEndsWith f ".gz")) ||
      bytesStartsWith payload [0x1f, 0x8b] then
    match gunzip payload with
    | none => some payload
    | some out => some out
  else
    some payload

/-- The smallest valid ZIP archive: a bare end-of-central-directory
record.  `zipfile` opens it and `namelist()` is empty. -/
def emptyZipBytes : Bytes :=
  [0x50, 0x4B, 0x05, 0x06] ++ List.replicate 18 0

/-- A zip payload holding one entry `report.xml`. -/
def zipWithReport : Bytes :=
  [0x50, 0x4B, 0x03, 0x04, 1, 2, 3]

/-- Raw XML bytes (`<?xml`). -/
def xmlPayload : Bytes :=
  [0x3c, 0x3f, 0x78, 0x6d, 0x6c]

/-- A gzip payload. -/
def gzPayload : Bytes :=
  [0x1f, 0x8b, 8, 0]

/-- Behaviour of `zipfile` on the concrete payloads above: the archive
with one `report.xml` entry yields that entry, the empty archive yields no
entries, and anything else fails to open. -/
def zipEntriesOf : Bytes → Option (List (String × Bytes)) :=
  fun b =>
    if b == zipWithReport then some [("report.xml", xmlPayload)]
    else if b == emptyZipBytes then some []
    else none

/-- Behaviour of `gzip.decompress` on the concrete payloads above. -/
def gunzipOf : Bytes → Option Bytes :=
  fun b => if b == gzPayload then some xmlPayload else none

/-! ## Parsed-report dictionary and persistence (`dmarc_ingest.py`) -/

/-- The report dictionary built by `parse_dmarc_xml`.  The
`date_range_begin/end` datetimes are modelled as optional Unix seconds;
they play no role in the verified properties. -/
structure ReportData where
  org_name : Option String := none
  email : Option String := none
  report_id : Option String := none
  date_range_begin : Option ℤ := none
  date_range_end : Option ℤ := none
  domain : Option String := none
  domain_policy : Option String := none
  subdomain_policy : Option String := none
  policy_percentage : ℤ := 100
  records : List DmarcRecord := []
  total_records : ℤ := 0
  pass_count : ℤ := 0
  fail_count : ℤ := 0
deriving DecidableEq, Repr

/-- One row of the `dmarc_reports` table (the columns the verified
properties touch). -/
structure StoredReport where
  id : ℕ
  user_id : String
  imap_config_id : String := ""
  org_name : Option String := none
  report_id : Option String := none
  domain : Option String := none
  total_records : ℤ := 0
  pass_count : ℤ := 0
  fail_count : ℤ := 0
  status : String := "processed"
deriving DecidableEq, Repr

/-- One row of the `dmarc_records` table; `report_id` is the
`dmarc_reports` foreign key. -/
structure StoredRecord where
  report_id : ℕ
  record : DmarcRecord
deriving DecidableEq, Repr

/-- The two tables touched by ingestion, plus the id sequence of the
row store. -/
structure Database where
  reports : List StoredReport
  records : List StoredRecord
  nextId : ℕ
deriving DecidableEq, Repr

def emptyDatabase : Database :=
  { reports := [], records := [], nextId := 1 }

/-- The duplicate test of `store_dmarc_report` (line 195):
`eq('user_id', ...).eq('report_id', ...).eq('org_name', ...)`. -/
def isDuplicateRow (user_id : String) (rd : ReportData) (r : StoredReport) : Bool :=
  r.user_id == user_id && r.report_id == rd.report_id && r.org_name == rd.org_name

/-- `store_dmarc_report` (`dmarc_ingest.py` lines 191-269).  On a
duplicate `(user_id, report_id, org_name)` tuple it inserts nothing and
returns the already-stored row's id.  `insertFails` models the database
insert raising; on that path the source logs a best-effort error row on
the same (failing) connection and re-raises, surfaced as `Except.error`. -/
def store_dmarc_report (db : Database) (user_id imap_config_id : String)
    (rd : ReportData) (insertFails : Bool) : Except String (Database × ℕ) :=
  match db.reports.find? (isDuplicateRow user_id rd) with
  | some existing => Except.ok (db, existing.id)
  | none =>
      if insertFails then Except.error "Failed to store report"
      else
        let rid := db.nextId
        let row : StoredReport :=
          { id := rid, user_id := user_id, imap_config_id := imap_config_id,
            org_name := rd.org_name, report_id := rd.report_id, domain := rd.domain,
            total_records := rd.total_records, pass_count := rd.pass_count,
            fail_count := rd.fail_count, status := "processed" }
        Except.ok
          ({ reports := db.reports ++ [row],
             records := db.records ++ rd.records.map (fun r => ⟨rid, r⟩),
             nextId := db.nextId + 1 }, rid)

deriving instance DecidableEq for Except

/-- One `(subject, filename, payload, uid)` tuple from
`fetch_dmarc_emails`.  `parseOutcome` is the combined outcome of
`extract_attachment` plus `parse_dmarc_xml` on the payload
(`Except.error` is the `ValueError` raised on a malformed document);
`insertFails` says whether the database insert raises while storing this
report. -/
structure IngestMsg where
  subject : String := ""
  filename : String := ""
  uid : ℕ
  parseOutcome : Except String ReportData
  insertFails : Bool := false
deriving DecidableEq, Repr

/-- The mutable state of one `process_dmarc_ingestion` run: the database,
the uids marked `\Seen`, and the `results` dictionary. -/
structure IngestState where
  db : Database
  readUids : List ℕ
  processed : ℕ
  errors : ℕ
  duplicates : ℕ
  reportSummaries : List (ℕ × Option String × Option String)
  errorDetails : List (String × String)
deriving DecidableEq, Repr

def initIngestState (db : Database) : IngestState :=
  { db := db, readUids := [], processed := 0, errors := 0, duplicates := 0,
    reportSummaries := [], errorDetails := [] }

/-- The per-message loop body of `process_dmarc_ingestion`
(`dmarc_ingest.py` lines 336-384): parse, store, and only after the store
returned mark the message `\Seen` and bump `processed`; a `ValueError`
from parsing or an exception from storing records an error entry and
leaves the message unread.  Note the `duplicates` counter is initialised
but never incremented anywhere in the source. -/
def ingestStep (user_id imap_config_id : String) (s : IngestState)
    (m : IngestMsg) : IngestState :=
  match m.parseOutcome with
  | Except.error e =>
      { s with errors := s.errors + 1,
               errorDetails := s.errorDetails ++ [(m.subject, e)] }
  | Except.ok rd =>
      match store_dmarc_report s.db user_id imap_config_id rd m.insertFails with
      | Except.error e =>
          { s with errors := s.errors + 1,
                   errorDetails := s.errorDetails ++ [(m.subject, e)] }
      | Except.ok (db2, rid) =>
          { s with db := db2,
                   readUids := s.readUids ++ [m.uid],
                   processed := s.processed + 1,
                   reportSummaries := s.reportSummaries ++ [(rid, rd.org_name, rd.domain)] }

/-- The message loop of `process_dmarc_ingestion` over one fetched
batch. -/
def process_dmarc_ingestion (user_id imap_config_id : String) (db : Database)
    (msgs : List IngestMsg) : IngestState :=
  msgs.foldl (ingestStep user_id imap_config_id) (initIngestState db)

/-! ## Attempt Rate Limiter (`rate_limiter.py`)

Per-owner state, with the three `defaultdict` maps modelled as total
functions (`failed_attempts` defaults to 0; a deleted `blocked_until`
key is `none`).  Wall-clock times are exact rationals. -/

/-- `IMAPRateLimiter.__init__`: the failure threshold. -/
def max_failed_attempts : ℕ := 5

/-- `IMAPRateLimiter.__init__`: the backoff base, in seconds. -/
def backoff_base : ℕ := 60

/-- `IMAPRateLimiter.__init__`: the backoff cap, in seconds. -/
def backoff_max : ℕ := 3600

/-- `IMAPRateLimiter._calculate_backoff_time` (`rate_limiter.py`
lines 74-83): zero up to the threshold, then
`min(base * 2^min(excess, 6), backoff_max)` where
`excess = failed_count - max_failed_attempts`. -/
def calculate_backoff_time (failed_count : ℕ) : ℕ :=
  if failed_count ≤ max_failed_attempts then 0
  else min (backoff_base * 2 ^ min (failed_count - max_failed_attempts) 6) backoff_max

/-- The per-owner maps of `IMAPRateLimiter`. -/
structure RateLimiterState where
  connection_attempts : String → List ℚ
  failed_attempts : String → ℕ
  blocked_until : String → Option ℚ

def initRateLimiter : RateLimiterState :=
  { connection_attempts := fun _ => [],
    failed_attempts := fun _ => 0,
    blocked_until := fun _ => none }

/-- `IMAPRateLimiter.record_attempt` (`rate_limiter.py` lines 125-165):
append the attempt timestamp; on success delete the failure counter and
any block; on failure increment the counter and, once it exceeds
`max_failed_attempts`, set the absolute unblock timestamp
`now + _calculate_backoff_time(count)`. -/
def record_attempt (s : RateLimiterState) (user_id : String) (success : Bool)
    (now : ℚ) : RateLimiterState :=
  let s1 : RateLimiterState :=
    { s with connection_attempts := fun u =>
        if u = user_id then s.connection_attempts u ++ [now]
        else s.connection_attempts u }
  if success then
    { s1 with
        failed_attempts := fun u => if u = user_id then 0 else s1.failed_attempts u,
        blocked_until := fun u => if u = user_id then none else s1.blocked_until u }
  else
    let fc := s.failed_attempts user_id + 1
    let s2 : RateLimiterState :=
      { s1 with failed_attempts := fun u =>
          if u = user_id then fc else s1.failed_attempts u }
    if max_failed_attempts < fc then
      { s2 with blocked_until := fun u =>
          if u = user_id then some (now + (calculate_backoff_time fc : ℚ))
          else s2.blocked_until u }
    else s2

/-- Six consecutive failed attempts by one owner at times 0..5, from a
fresh limiter. -/
def sixFailures : RateLimiterState :=
  [(0 : ℚ), 1, 2, 3, 4, 5].foldl
    (fun st t => record_attempt st "owner" false t) initRateLimiter

/-! ## Credential Guard (`crypto.py`)

Key material is held as raw bytes (the base64 transport encoding of the
key files round-trips and is not modelled separately).  The AES-GCM
primitive of the `cryptography` library is a parameter: `aeadDecrypt key
nonce ciphertext` is `none` exactly when the library raises `InvalidTag`. -/

/-- One retained (archived) key: its backup file name —
`key_{key_id}_{date}.json` — and the raw key bytes. -/
structure BackupKey where
  filename : String
  key : Bytes
deriving DecidableEq, Repr

/-- The key store: the current key and the backup directory. -/
structure KeyStore where
  current_key_id : String
  current_key : Bytes
  backups : List BackupKey
deriving DecidableEq, Repr

/-- `CredentialEncryption._get_key_by_id` (`crypto.py` lines 114-135):
the current key if its id matches, else the first backup file whose name
starts with `key_{key_id}`, else `None`. -/
def get_key_by_id (ks : KeyStore) (key_id : String) : Option Bytes :=
  if ks.current_key_id == key_id then some ks.current_key
  else
    match ks.backups.find? (fun b => strStartsWith b.filename ("key_" ++ key_id)) with
    | some b => some b.key
    | none => none

/-- `decrypt_credential` (`crypto.py` lines 163-194).  A missing (or, by
Python truthiness, empty) key raises, re-raised as `Failed to decrypt
credential: ...`; `InvalidTag` from AES-GCM raises `Invalid encrypted
data or wrong key`.  The first 12 bytes of the decoded payload are the
nonce, the rest the ciphertext. -/
def decrypt_credential (aeadDecrypt : Bytes → Bytes → Bytes → Option String)
    (ks : KeyStore) (encrypted_data : Bytes) (key_id : String) :
    Except String String :=
  match get_key_by_id ks key_id with
  | none =>
      Except.error ("Failed to decrypt credential: Encryption key not found for ID: " ++ key_id)
  | some key =>
      if key.isEmpty then
        Except.error ("Failed to decrypt credential: Encryption key not found for ID: " ++ key_id)
      else
        match aeadDecrypt key (encrypted_data.take 12) (encrypted_data.drop 12) with
        | none => Except.error "Invalid encrypted data or wrong key"
        | some plaintext => Except.ok plaintext

/-! ## Report-bearing-message detection (`is_dmarc_email`, `dmarc_ingest.py`)

The three pattern tables are the literal regex sources; the regex engine
itself (`re.search`) is a parameter `research pattern text`.  Each
potentially-raising access to the message object is `Except`-valued:
decoding the subject header, reading the sender, walking/decoding the
plain-text body parts (whose `errors='ignore'` decode result is the
string held), and walking the attachment filenames. -/

def DMARC_SUBJECT_PATTERNS : List String :=
  ["dmarc", "report domain", "aggregate report", "xml report",
   "daily report", "weekly report", "monthly report", "rua"]

def DMARC_SENDER_PATTERNS : List String :=
  ["noreply.*dmarc", "dmarc.*report", "dmarcreport@microsoft\\.com",
   "postmaster", "mailer-daemon", "abuse", "security"]

def DMARC_ATTACHMENT_PATTERNS : List String :=
  ["\\.xml$", "\\.xml\\.zip$", "\\.xml\\.gz$", "\\.xml\\.gzip$",
   "dmarc.*\\.zip$", "aggregate.*\\.zip$", ".*\\.zip$"]

/-- The observable accesses `is_dmarc_email` makes on one
`email.message` object. -/
structure EmailMessage where
  decodeSubject : Except String String
  fromHeader : Except String (Option String)
  plainBodies : Except String (List String)
  attachmentNames : Except String (List String)

/-- The body of `is_dmarc_email` inside its `try` block
(`dmarc_ingest.py` lines 50-96): subject patterns, then sender patterns,
then body markers, then attachment-name patterns; the first match wins. -/
def is_dmarc_email_checks (research : String → String → Bool)
    (m : EmailMessage) : Except String Bool :=
  match m.decodeSubject with
  | Except.error e => Except.error e
  | Except.ok subject =>
      let subject_lower := pyLower subject
      if DMARC_SUBJECT_PATTERNS.any (fun p => research p subject_lower) then
        Except.ok true
      else
        match m.fromHeader with
        | Except.error e => Except.error e
        | Except.ok fromH =>
            let sender := pyLower (fromH.getD "")
            if DMARC_SENDER_PATTERNS.any (fun p => research p sender) then
              Except.ok true
            else
              match m.plainBodies with
              | Except.error e => Except.error e
              | Except.ok bodies =>
                  let body_content := String.join (bodies.map pyLower)
                  if strContains body_content "dmarc" ||
                      strContains body_content "aggregate report" then
                    Except.ok true
                  else
                    match m.attachmentNames with
                    | Except.error e => Except.error e
                    | Except.ok names =>
                        if names.any (fun fn =>
                            DMARC_ATTACHMENT_PATTERNS.any
                              (fun p => research p (pyLower fn))) then
                          Except.ok true
                        else
                          Except.ok false

/-- `is_dmarc_email` (`dmarc_ingest.py` lines 48-100): the whole body runs
under one `try`; any exception is logged and the message is classified
as not report-bearing. -/
def is_dmarc_email (research : String → String → Bool) (m : EmailMessage) : Bool :=
  match is_dmarc_email_checks research m with
  | Except.ok b => b
  | Except.error _ => false

/-! ## Authentication Analyzer (`analysis_engine.py`)

The class defines `_get_spf_record`, `_ip_authorized_by_spf`,
`_identify_mail_provider`, `_calculate_health_score` and
`_determine_analysis_status` twice; per Python semantics the later
definitions win, so `_calculate_health_score` is the four-argument
version with the DKIM penalty (lines 618-650) and
`_determine_analysis_status` the three-argument version (lines 652-661).

The `SPFAnalysis` dataclass declares a `redirects` field with no default
(lines 30-39), but the single constructor call in `_analyze_spf_failures`
(lines 234-242) never passes it, so that call raises `TypeError` on every
execution path.  Two models are therefore given.
`analyze_domain_reports_main` expresses the scored continuation of
`analyze_domain_reports` with the `SPFAnalysis` value supplied as a
parameter: it is exact for every path reached before the
`_analyze_spf_failures` call (failing or empty report fetch, failing
record fetch), and for the scoring/issue functions taken on their own.
`analyze_domain_reports_exec` then models the run as the source actually
executes it, with the always-raising `analyze_spf_failures` step in
place, so every run with non-empty reports degrades to the `error`
result.  CIDR matching over the provider directory
(`_identify_mail_provider`) is a lookup function `providerOf`; the
report and record fetches are `Except`-valued: an `Except.error` is an
exception out of the database client, caught by the top-level handler of
`analyze_domain_reports`. -/

/-- The `SPFAnalysis` dataclass.  (Note: the source constructor call at
lines 234-242 never passes the declared `redirects` field.) -/
structure SPFAnalysis where
  record : Option String
  is_valid : Bool := false
  mechanisms : List String := []
  includes : List String := []
  redirects : List String := []
  lookup_count : ℕ := 0
  issues : List String := []
  missing_ips : List String := []
deriving DecidableEq, Repr

/-- The `DKIMAnalysis` dataclass. -/
structure DKIMAnalysis where
  domains : List String := []
  selectors : List String := []
  valid_signatures : ℤ := 0
  invalid_signatures : ℤ := 0
  missing_signatures : ℤ := 0
  issues : List String := []
deriving DecidableEq, Repr

/-- One issue dictionary as built by the `_detect_*` methods; keys that
only some issue types carry are `Option`-valued or default-empty. -/
structure Issue where
  type : String
  severity : Option String := none
  title : String := ""
  message : String := ""
  impact : String := ""
  category : String := ""
  provider : Option String := none
  ip : Option String := none
  action : Option String := none
  details : List String := []
deriving DecidableEq, Repr

/-- Append preserving first-insertion order; models accumulating into a
Python `set` (the set's iteration order is unspecified in Python; only
membership and size are relied on downstream). -/
def insertUnique (l : List String) (x : String) : List String :=
  if l.contains x then l else l ++ [x]

/-- Accumulator step of `_analyze_dkim_failures` (lines 255-271):
`(domains, selectors, valid, invalid, missing)`. -/
def dkimStep (acc : List String × List String × ℤ × ℤ × ℤ)
    (r : DmarcRecord) : List String × List String × ℤ × ℤ × ℤ :=
  let doms := if optStrTruthy r.dkim_domain then insertUnique acc.1 (r.dkim_domain.getD "") else acc.1
  let sels := if optStrTruthy r.dkim_selector then insertUnique acc.2.1 (r.dkim_selector.getD "") else acc.2.1
  if r.dkim_result == some "pass" then
    (doms, sels, acc.2.2.1 + r.count, acc.2.2.2.1, acc.2.2.2.2)
  else if r.dkim_result == some "fail" then
    (doms, sels, acc.2.2.1, acc.2.2.2.1 + r.count, acc.2.2.2.2)
  else
    (doms, sels, acc.2.2.1, acc.2.2.2.1, acc.2.2.2.2 + r.count)

/-- `_analyze_dkim_failures` (`analysis_engine.py` lines 244-291). -/
def analyze_dkim_failures (records : List DmarcRecord) : DKIMAnalysis :=
  let acc := records.foldl dkimStep ([], [], 0, 0, 0)
  let valid := acc.2.2.1
  let invalid := acc.2.2.2.1
  let missing := acc.2.2.2.2
  let total := valid + invalid + missing
  let fail_rate : ℚ := (invalid : ℚ) / (total : ℚ) * 100
  let missing_rate : ℚ := (missing : ℚ) / (total : ℚ) * 100
  let issues : List String :=
    if 0 < total then
      (if 10 < fail_rate then
        ["High DKIM failure rate: " ++ pyFormatRate fail_rate ++ "%"] else []) ++
      (if 20 < missing_rate then
        ["Many messages without DKIM signatures: " ++ pyFormatRate missing_rate ++ "%"] else [])
    else []
  { domains := acc.1, selectors := acc.2.1, valid_signatures := valid,
    invalid_signatures := invalid, missing_signatures := missing, issues := issues }

/-- The dictionary built by `_analyze_failure_patterns`.  (The sorted
`top_failing_ips` top-10 view is a derived display value no consumer of
the analysis reads; the detector reads only `total_failing_ips`.) -/
structure PatternAnalysis where
  ip_failures : List (String × ℤ)
  provider_failures : List (String × ℤ)
  total_failing_ips : ℕ
deriving DecidableEq, Repr

/-- `defaultdict(int)` bump of an association list. -/
def bumpAssoc (l : List (String × ℤ)) (k : String) (v : ℤ) : List (String × ℤ) :=
  if l.any (fun e => e.1 == k) then
    l.map (fun e => if e.1 == k then (e.1, e.2 + v) else e)
  else l ++ [(k, v)]

/-- Loop body of `_analyze_failure_patterns` (lines 298-306). -/
def patternStep (providerOf : String → Option String)
    (acc : List (String × ℤ) × List (String × ℤ)) (r : DmarcRecord) :
    List (String × ℤ) × List (String × ℤ) :=
  if r.spf_result == some "fail" || r.dkim_result == some "fail" then
    let ip := r.source_ip.getD ""
    let ipf := bumpAssoc acc.1 ip r.count
    match providerOf ip with
    | some p => (ipf, bumpAssoc acc.2 p r.count)
    | none => (ipf, acc.2)
  else acc

/-- `_analyze_failure_patterns` (`analysis_engine.py` lines 293-312). -/
def analyze_failure_patterns (providerOf : String → Option String)
    (records : List DmarcRecord) : PatternAnalysis :=
  let acc := records.foldl (patternStep providerOf) ([], [])
  { ip_failures := acc.1, provider_failures := acc.2,
    total_failing_ips := acc.1.length }

/-- Per-provider `{'total':, 'pass':, 'fail':}` stats. -/
abbrev ProviderStats := List (String × ℤ × ℤ × ℤ)

/-- `defaultdict` bump for `_analyze_mail_providers`. -/
def bumpProvider (l : ProviderStats) (k : String) (dt dp df : ℤ) : ProviderStats :=
  if l.any (fun e => e.1 == k) then
    l.map (fun e => if e.1 == k then (e.1, e.2.1 + dt, e.2.2.1 + dp, e.2.2.2 + df) else e)
  else l ++ [(k, dt, dp, df)]

/-- `_analyze_mail_providers` (`analysis_engine.py` lines 314-332). -/
def analyze_mail_providers (providerOf : String → Option String)
    (records : List DmarcRecord) : ProviderStats :=
  records.foldl
    (fun acc r =>
      let provider := (providerOf (r.source_ip.getD "")).getD "unknown"
      if r.spf_result == some "pass" || r.dkim_result == some "pass" then
        bumpProvider acc provider r.count r.count 0
      else
        bumpProvider acc provider r.count 0 r.count) []

/-- The `spf_missing` issue literal of `_detect_spf_issues`. -/
def spfMissingIssue : Issue :=
  { type := "spf_missing", severity := some "critical",
    title := "SPF Record Missing",
    message := "No SPF record found for this domain",
    impact := "All emails will fail SPF authentication",
    category := "spf",
    action := some "Create SPF record with authorized mail servers" }

/-- The `spf_lookup_limit` issue literal of `_detect_spf_issues`. -/
def spfLookupIssue (lookup_count : ℕ) : Issue :=
  { type := "spf_lookup_limit", severity := some "high",
    title := "SPF DNS Lookup Limit Exceeded",
    message := "SPF record requires " ++ toString lookup_count ++ " DNS lookups (limit is 10)",
    impact := "SPF evaluation may fail due to too many DNS lookups",
    category := "spf",
    action := some "Optimize SPF record to reduce DNS lookups" }

/-- One `spf_missing_provider` issue from a `"ip (provider)"` entry.  The
source destructures `missing_ip.split(' (')` into exactly two parts; by
construction of `missing_ips` in `_analyze_spf_failures` that shape
always holds for entries containing `'('`. -/
def spfProviderIssue (mip : String) : Option Issue :=
  if mip.data.contains '(' then
    match pySplit mip " (" with
    | [ip, prov0] =>
        let provider := pyRstripChar prov0 ')'
        some { type := "spf_missing_provider", severity := some "high",
               title := "Missing " ++ pyTitle provider ++ " Mail Servers in SPF",
               message := "IP " ++ ip ++ " from " ++ provider ++
                 " is failing SPF but appears to be legitimate",
               impact := "Emails from " ++ provider ++
                 " services will fail DMARC authentication",
               category := "spf", provider := some provider,
               ip := some (pyStrip ip),
               action := some ("Add " ++ provider ++ " mail servers to SPF record") }
    | _ => none
  else none

/-- `_detect_spf_issues` (`analysis_engine.py` lines 334-380).  The
`provider_analysis` argument is accepted and never read, as in the
source. -/
def detect_spf_issues (spf : SPFAnalysis) (provider_analysis : ProviderStats) :
    List Issue :=
  (if !optStrTruthy spf.record then [spfMissingIssue]
   else if 10 < spf.lookup_count then [spfLookupIssue spf.lookup_count]
   else [])
  ++ (spf.missing_ips.take 5).filterMap spfProviderIssue

/-- `_detect_dkim_issues` (`analysis_engine.py` lines 382-406). -/
def detect_dkim_issues (dkim : DKIMAnalysis) : List Issue :=
  dkim.issues.filterMap (fun istr =>
    let ls := pyLower istr
    if strContains ls "failure rate" then
      some { type := "dkim_high_failure", severity := some "high",
             title := "High DKIM Failure Rate", message := istr,
             impact := "Many emails are failing DKIM authentication",
             category := "dkim" }
    else if strContains ls "without dkim" then
      some { type := "dkim_missing_signatures", severity := some "medium",
             title := "Missing DKIM Signatures", message := istr,
             impact := "Emails without DKIM signatures rely solely on SPF for DMARC",
             category := "dkim" }
    else none)

/-- `_detect_pattern_anomalies` (`analysis_engine.py` lines 408-423). -/
def detect_pattern_anomalies (pa : PatternAnalysis) : List Issue :=
  if 20 < pa.total_failing_ips then
    [{ type := "pattern_many_failing_ips", severity := some "medium",
       title := "Many Different IPs Failing Authentication",
       message := toString pa.total_failing_ips ++ " different IPs are failing",
       impact := "Could indicate compromised accounts or misconfiguration",
       category := "pattern",
       action := some "Review email sending sources and SPF configuration" }]
  else []

/-- Loop body of `_detect_alignment_issues` (lines 533-540). -/
def alignmentStep (acc : List String) (r : DmarcRecord) : List String :=
  let hf := r.header_from.getD ""
  let ef := r.envelope_from.getD ""
  if !hf.data.isEmpty && !ef.data.isEmpty && hf != ef then
    insertUnique acc (hf ++ " (envelope: " ++ ef ++ ")")
  else acc

/-- `_detect_alignment_issues` (`analysis_engine.py` lines 527-553). -/
def detect_alignment_issues (records : List DmarcRecord) : List Issue :=
  let mis := records.foldl alignmentStep []
  if mis.isEmpty then []
  else
    [{ type := "alignment_domain_mismatch", severity := some "medium",
       title := "Domain Alignment Issues",
       message := "Found domain misalignment in " ++ toString mis.length ++ " cases",
       impact := "May cause DMARC failures even with valid SPF/DKIM",
       category := "alignment",
       details := mis.take 5 }]

/-- The per-issue penalty of `_calculate_health_score`
(`issue.get('severity', 'low')` then critical 20 / high 10 / medium 5 /
else 2). -/
def severity_penalty (sev : String) : ℚ :=
  if sev = "critical" then 20
  else if sev = "high" then 10
  else if sev = "medium" then 5
  else 2

/-- `_calculate_health_score` (`analysis_engine.py` lines 618-650, the
later of the two definitions, which Python keeps): start at 100, subtract
`min(failure_rate*2, 60)`, subtract per-issue severity penalties,
subtract 25 for a missing SPF record else 15 for an excessive lookup
count, subtract `min(dkim_fail_rate/2, 20)` when any DKIM data exists,
then `max(0, min(100, int(...)))`. -/
def calculate_health_score (failure_rate : ℚ) (issues : List Issue)
    (spf : SPFAnalysis) (dkim : DKIMAnalysis) : ℤ :=
  let b1 : ℚ := 100 - min (failure_rate * 2) 60
  let b2 : ℚ := b1 - (issues.map (fun i => severity_penalty (i.severity.getD "low"))).sum
  let b3 : ℚ := b2 - (if !optStrTruthy spf.record then 25
                      else if 10 < spf.lookup_count then 15 else 0)
  let total : ℤ := dkim.valid_signatures + dkim.invalid_signatures + dkim.missing_signatures
  let b4 : ℚ :=
    if 0 < total then
      b3 - min ((dkim.invalid_signatures : ℚ) / (total : ℚ) * 100 / 2) 20
    else b3
  max 0 (min 100 (pyInt b4))

/-- `_determine_analysis_status` (`analysis_engine.py` lines 652-661, the
surviving three-argument definition; the `anomalies` argument is accepted
and never read). -/
def determine_analysis_status (health_score : ℤ) (failure_rate : ℚ)
    (anomalies : ℕ) : String :=
  if 90 ≤ health_score ∧ failure_rate < 5 then "excellent"
  else if 75 ≤ health_score ∧ failure_rate < 15 then "good"
  else if 50 ≤ health_score ∧ failure_rate < 30 then "warning"
  else "critical"

/-- The `AnalysisResult` dataclass. -/
structure AnalysisResult where
  domain : String
  health_score : ℤ
  failure_rate : ℚ
  anomalies_detected : ℕ
  issues : List Issue
  recommendations_count : ℕ
  status : String
deriving DecidableEq, Repr

/-- The terminal `no_data` result of `analyze_domain_reports`
(lines 91-100). -/
def no_data_result (domain : String) : AnalysisResult :=
  { domain := domain, health_score := 0, failure_rate := 0,
    anomalies_detected := 0,
    issues := [{ type := "no_data",
                 message := "No DMARC reports found for analysis" }],
    recommendations_count := 0, status := "no_data" }

/-- The terminal `error` result of `analyze_domain_reports`
(lines 146-156). -/
def error_result (domain : String) (e : String) : AnalysisResult :=
  { domain := domain, health_score := 0, failure_rate := 0,
    anomalies_detected := 0,
    issues := [{ type := "analysis_error",
                 message := "Analysis failed: " ++ e }],
    recommendations_count := 0, status := "error" }

/-- The body of `analyze_domain_reports` inside its `try` block
(`analysis_engine.py` lines 88-144): fetch reports (empty means
`no_data`), fetch records, run the analyses, compute the failure rate
from the reports' aggregate counts, concatenate the four detectors'
issues in order, score, count critical/high anomalies, and derive the
status. -/
def analyze_domain_reports_main (domain : String)
    (fetchReports : Except String (List StoredReport))
    (fetchRecords : Except String (List DmarcRecord))
    (spf_analysis : SPFAnalysis)
    (providerOf : String → Option String) : Except String AnalysisResult :=
  match fetchReports with
  | Except.error e => Except.error e
  | Except.ok reports =>
      if reports.isEmpty then Except.ok (no_data_result domain)
      else
        match fetchRecords with
        | Except.error e => Except.error e
        | Except.ok records =>
            let dkim_analysis := analyze_dkim_failures records
            let pattern_analysis := analyze_failure_patterns providerOf records
            let provider_analysis := analyze_mail_providers providerOf records
            let total_records : ℤ := (reports.map (fun r => r.total_records)).sum
            let total_failures : ℤ := (reports.map (fun r => r.fail_count)).sum
            let failure_rate : ℚ :=
              if 0 < total_records then
                (total_failures : ℚ) / (total_records : ℚ) * 100
              else 0
            let issues :=
              detect_spf_issues spf_analysis provider_analysis
                ++ detect_dkim_issues dkim_analysis
                ++ detect_pattern_anomalies pattern_analysis
                ++ detect_alignment_issues records
            let health_score := calculate_health_score failure_rate issues spf_analysis dkim_analysis
            let anomalies := (issues.filter (fun i =>
              i.severity == some "critical" || i.severity == some "high")).length
            let status := determine_analysis_status health_score failure_rate anomalies
            Except.ok
              { domain := domain, health_score := health_score,
                failure_rate := pyRound2 failure_rate,
                anomalies_detected := anomalies, issues := issues,
                recommendations_count := issues.length, status := status }

/-- `analyze_domain_reports` (`analysis_engine.py` lines 82-156): the
whole computation runs under one `try`; any exception degrades to the
terminal `error` result instead of propagating. -/
def analyze_domain_reports (domain : String)
    (fetchReports : Except String (List StoredReport))
    (fetchRecords : Except String (List DmarcRecord))
    (spf_analysis : SPFAnalysis)
    (providerOf : String → Option String) : AnalysisResult :=
  match analyze_domain_reports_main domain fetchReports fetchRecords spf_analysis providerOf with
  | Except.ok r => r
  | Except.error e => error_result domain e

/-- `_analyze_spf_failures` (`analysis_engine.py` lines 189-242) as it
actually executes: the body computes the SPF record text, mechanism and
include lists, lookup estimate, issue strings and missing-IP list, but
its final `SPFAnalysis(record=..., is_valid=..., mechanisms=...,
includes=..., lookup_count=..., issues=..., missing_ips=...)` call
(lines 234-242) omits the `redirects` field, which the dataclass
(lines 30-39) declares without a default — so the constructor raises
`TypeError` on every execution path, whatever the DNS result
(`spf_record`) and records are.  (The Python message quotes the field
name; the quotes are dropped here.) -/
def analyze_spf_failures (spf_record : Option String)
    (records : List DmarcRecord) : Except String SPFAnalysis :=
  Except.error
    "SPFAnalysis.__init__() missing 1 required positional argument: redirects"

/-- `analyze_domain_reports` as the source executes it, with the
unconditional `_analyze_spf_failures` call of line 106 in place (the
steps before it — report fetch, empty check, record fetch — are exactly
those of `analyze_domain_reports_main`; the scored continuation after it
is `analyze_domain_reports_main` applied to the value the call would
have produced).  Since `analyze_spf_failures` raises on every path,
every run with non-empty reports degrades to the `error` result. -/
def analyze_domain_reports_exec (domain : String)
    (fetchReports : Except String (List StoredReport))
    (fetchRecords : Except String (List DmarcRecord))
    (spf_record : Option String)
    (providerOf : String → Option String) : AnalysisResult :=
  match
    (match fetchReports with
     | Except.error e => Except.error e
     | Except.ok reports =>
        if reports.isEmpty then Except.ok (no_data_result domain)
        else
          match fetchRecords with
          | Except.error e => Except.error e
          | Except.ok records =>
              match analyze_spf_failures spf_record records with
              | Except.error e => Except.error e
              | Except.ok spf_analysis =>
                  analyze_domain_reports_main domain (Except.ok reports)
                    (Except.ok records) spf_analysis providerOf)
  with
  | Except.ok r => r
  | Except.error e => error_result domain e

/-- The `SPFAnalysis` value the constructor call in
`_analyze_spf_failures` assembles for a domain with no SPF record and no
failing source IPs (never actually returned, since the call raises; used
to evaluate the detection and scoring functions on their own). -/
def spfNoRecord : SPFAnalysis :=
  { record := none, is_valid := false, mechanisms := [], includes := [],
    redirects := [], lookup_count := 0,
    issues := ["No SPF record found"], missing_ips := [] }

/-- A provider directory lookup that knows no ranges. -/
def noProviders : String → Option String := fun _ => none

/-- One stored report with ten messages, all passing. -/
def reportsOneClean : List StoredReport :=
  [{ id := 1, user_id := "u", imap_config_id := "c", org_name := some "google.com",
     report_id := some "rpt-1", domain := some "example.com",
     total_records := 10, pass_count := 10, fail_count := 0,
     status := "processed" }]

/-! ## Concrete fixtures used by the closed instances below -/

/-- A parsed report used in the duplicate-handling scenarios. -/
def rptGoogle : ReportData :=
  { org_name := some "google.com", report_id := some "rpt-1",
    domain := some "example.com", total_records := 17, pass_count := 12,
    fail_count := 5, records := [] }

/-- Two messages carrying the same parsed report. -/
def msgCopy1 : IngestMsg := { uid := 101, parseOutcome := Except.ok rptGoogle }

def msgCopy2 : IngestMsg := { uid := 102, parseOutcome := Except.ok rptGoogle }

/-- An ingestion run over two identical report-bearing messages against
an empty database. -/
def twoCopiesRun : IngestState :=
  process_dmarc_ingestion "u" "cfg" emptyDatabase [msgCopy1, msgCopy2]

/-- The row the first store of `rptGoogle` for owner `"u"` leaves
behind. -/
def rowGoogle : StoredReport :=
  { id := 1, user_id := "u", imap_config_id := "cfg",
    org_name := some "google.com", report_id := some "rpt-1",
    domain := some "example.com", total_records := 17, pass_count := 12,
    fail_count := 5, status := "processed" }

/-- A database already holding `rowGoogle`. -/
def dbWithGoogle : Database :=
  { reports := [rowGoogle], records := [], nextId := 2 }

/-- A limiter state in which owner `"owner"` has five recorded
consecutive failures and no active block. -/
def fiveFailedState : RateLimiterState :=
  { connection_attempts := fun _ => [],
    failed_attempts := fun u => if u = "owner" then 5 else 0,
    blocked_until := fun _ => none }

/-- A key store with one current key and one archived key. -/
def ksOne : KeyStore :=
  { current_key_id := "k1", current_key := [1, 2, 3],
    backups := [{ filename := "key_k0_2024-01-01.json", key := [9, 9] }] }

/-- An AES-GCM oracle that rejects every ciphertext (all tags invalid). -/
def aeadRejectAll : Bytes → Bytes → Bytes → Option String := fun _ _ _ => none

/-- A regex engine that matches nothing. -/
def researchNone : String → String → Bool := fun _ _ => false

/-- A message whose subject header fails to decode. -/
def badSubjectMsg : EmailMessage :=
  { decodeSubject := Except.error "unknown encoding",
    fromHeader := Except.ok none,
    plainBodies := Except.ok [],
    attachmentNames := Except.ok [] }

/-! ## Helper lemmas -/

/-- Unfolding of the summary loop for an arbitrary starting
accumulator. -/
theorem summary_foldl (rs : List DmarcRecord) : ∀ t p f : ℤ,
    rs.foldl summaryStep (t, p, f) =
      (t + (rs.map DmarcRecord.count).sum,
       p + ((rs.filter recordPasses).map DmarcRecord.count).sum,
       f + ((rs.filter (fun r => !recordPasses r)).map DmarcRecord.count).sum) := by
  induction rs with
  | nil => intro t p f; simp
  | cons r rs ih =>
      intro t p f
      cases hr : recordPasses r with
      | true =>
          simp [List.foldl_cons, summaryStep, hr, List.filter_cons, ih,
            Prod.mk.injEq]
          omega
      | false =>
          simp [List.foldl_cons, summaryStep, hr, List.filter_cons, ih,
            Prod.mk.injEq]
          omega

/-- Passing and non-passing counts partition the total. -/
theorem summary_count_split (rs : List DmarcRecord) :
    ((rs.filter recordPasses).map DmarcRecord.count).sum
      + ((rs.filter (fun r => !recordPasses r)).map DmarcRecord.count).sum
      = (rs.map DmarcRecord.count).sum := by
  induction rs with
  | nil => simp
  | cons r rs ih =>
      cases hr : recordPasses r <;> simp [List.filter_cons, hr] <;> linarith

/-- A store call on a database already holding the (owner, report id,
org name) tuple returns the stored row's id and changes nothing. -/
theorem store_dmarc_report_dup (db : Database) (uid cfg : String)
    (rd : ReportData) (f : Bool) (r : StoredReport)
    (h : db.reports.find? (isDuplicateRow uid rd) = some r) :
    store_dmarc_report db uid cfg rd f = Except.ok (db, r.id) := by
  simp [store_dmarc_report, h]

/-- A successful store leaves a row with the report's identity tuple in
the resulting database. -/
theorem store_ok_mem (db : Database) (uid cfg : String) (rd : ReportData)
    (f : Bool) (db2 : Database) (rid : ℕ)
    (h : store_dmarc_report db uid cfg rd f = Except.ok (db2, rid)) :
    ∃ r ∈ db2.reports, r.user_id = uid ∧ r.report_id = rd.report_id
      ∧ r.org_name = rd.org_name := by
  unfold store_dmarc_report at h
  cases hfind : db.reports.find? (isDuplicateRow uid rd) with
  | some r0 =>
      rw [hfind] at h
      simp only [Except.ok.injEq, Prod.mk.injEq] at h
      obtain ⟨hdb, -⟩ := h
      refine ⟨r0, ?_, ?_⟩
      · rw [← hdb]
        exact List.mem_of_find?_eq_some hfind
      · have hp := List.find?_some hfind
        simp only [isDuplicateRow, Bool.and_eq_true, beq_iff_eq] at hp
        exact ⟨hp.1.1, hp.1.2, hp.2⟩
  | none =>
      rw [hfind] at h
      cases hf : f with
      | true => rw [hf] at h; simp at h
      | false =>
          rw [hf] at h
          simp only [if_false, Bool.false_eq_true, Except.ok.injEq, Prod.mk.injEq] at h
          obtain ⟨hdb, -⟩ := h
          refine ⟨{ id := db.nextId, user_id := uid, imap_config_id := cfg,
                    org_name := rd.org_name, report_id := rd.report_id,
                    domain := rd.domain, total_records := rd.total_records,
                    pass_count := rd.pass_count, fail_count := rd.fail_count,
                    status := "processed" }, ?_, rfl, rfl, rfl⟩
          rw [← hdb]
          simp

/-- Python's truncating `int()` is monotone. -/
theorem pyInt_mono {a b : ℚ} (h : a ≤ b) : pyInt a ≤ pyInt b := by
  unfold pyInt
  split_ifs with h1 h2 h2
  · exact Int.floor_le_floor h
  · exact absurd (h1.trans h) h2
  · calc ⌈a⌉ ≤ 0 := Int.ceil_le.mpr (by exact_mod_cast (le_of_not_le h1))
      _ ≤ ⌊b⌋ := Int.le_floor.mpr (by exact_mod_cast h2)
  · exact Int.ceil_le_ceil h

/-! ## Claim theorems -/

/-- C1: `parse_dmarc_xml` computes `total_records` as the sum of
per-record counts, `pass_count` as the sum of counts of records whose
SPF outcome is `pass` OR whose DKIM outcome is `pass` (never requiring
both), and `fail_count` as `total_records - pass_count`; on the three
records {count 5, spf fail, dkim fail}, {count 10, spf pass, dkim pass},
{count 2, spf fail, dkim pass} it returns (17, 12, 5). -/
theorem parse_summary_or_semantics (records : List DmarcRecord) :
    (dmarc_summary records).1 = (records.map DmarcRecord.count).sum
    ∧ (dmarc_summary records).2.1 =
        ((records.filter (fun r =>
          r.spf_result == some "pass" || r.dkim_result == some "pass")).map
            DmarcRecord.count).sum
    ∧ (dmarc_summary records).2.2 =
        (dmarc_summary records).1 - (dmarc_summary records).2.1
    ∧ dmarc_summary
        [{ source_ip := some "A", count := 5,
           spf_result := some "fail", dkim_result := some "fail" },
         { source_ip := some "B", count := 10,
           spf_result := some "pass", dkim_result := some "pass" },
         { source_ip := some "C", count := 2,
           spf_result := some "fail", dkim_result := some "pass" }]
      = (17, 12, 5) := by
  have hsplit := summary_count_split records
  have hfilter : records.filter (fun r =>
      r.spf_result == some "pass" || r.dkim_result == some "pass")
      = records.filter recordPasses := by
    refine List.filter_congr ?_
    intro r _
    simp [recordPasses, Bool.or_comm]
  have key : dmarc_summary records =
      ((records.map DmarcRecord.count).sum,
       ((records.filter recordPasses).map DmarcRecord.count).sum,
       ((records.filter (fun r => !recordPasses r)).map DmarcRecord.count).sum) := by
    unfold dmarc_summary
    rw [summary_foldl records 0 0 0]
    simp
  refine ⟨?_, ?_, ?_, by decide⟩
  · rw [key]
  · rw [key, hfilter]
  · rw [key]
    simp only
    linarith

/-- C2 counterexample: ingesting the same report twice against an empty
database stores it once and returns the same id — but the duplicate IS
counted in `processed` (2, not 1), while the `duplicates` counter stays
0; so a duplicate does count toward the run summary's processed count,
contrary to the claim. -/
theorem duplicate_counts_as_processed_counterexample :
    twoCopiesRun.db.reports.length = 1
    ∧ twoCopiesRun.reportSummaries =
        [(1, some "google.com", some "example.com"),
         (1, some "google.com", some "example.com")]
    ∧ twoCopiesRun.processed = 2
    ∧ twoCopiesRun.errors = 0
    ∧ twoCopiesRun.duplicates = 0
    ∧ ¬ twoCopiesRun.processed = 1 := by decide

/-- C2 (amended): storing a report whose (owner, external report id,
organization name) tuple is already present inserts no new report and
returns the identifier stored by the first call; but in the run summary
such a duplicate increments `processed` by one (it does not touch
`errors`), and the `duplicates` counter is never incremented. -/
theorem store_dedup_amended :
    (∀ (db : Database) (uid cfg : String) (rd : ReportData) (f : Bool)
        (r : StoredReport),
      db.reports.find? (isDuplicateRow uid rd) = some r →
      store_dmarc_report db uid cfg rd f = Except.ok (db, r.id))
    ∧ (∀ (db : Database) (uid cfg : String) (rd : ReportData) (f : Bool)
        (db2 : Database) (rid : ℕ),
      db.reports.find? (isDuplicateRow uid rd) = none →
      store_dmarc_report db uid cfg rd false = Except.ok (db2, rid) →
      store_dmarc_report db2 uid cfg rd f = Except.ok (db2, rid))
    ∧ (∀ (uid cfg : String) (s : IngestState) (m : IngestMsg)
        (rd : ReportData) (r : StoredReport),
      m.parseOutcome = Except.ok rd →
      s.db.reports.find? (isDuplicateRow uid rd) = some r →
      (ingestStep uid cfg s m).db = s.db
      ∧ (ingestStep uid cfg s m).processed = s.processed + 1
      ∧ (ingestStep uid cfg s m).errors = s.errors
      ∧ (ingestStep uid cfg s m).duplicates = s.duplicates) := by
  refine ⟨?_, ?_, ?_⟩
  · intro db uid cfg rd f r h
    exact store_dmarc_report_dup db uid cfg rd f r h
  · intro db uid cfg rd f db2 rid h hstore
    simp only [store_dmarc_report, h, Bool.false_eq_true, if_false,
      Except.ok.injEq, Prod.mk.injEq] at hstore
    obtain ⟨hdb, hrid⟩ := hstore
    have hrow : db2.reports.find? (isDuplicateRow uid rd) =
        some { id := db.nextId, user_id := uid, imap_config_id := cfg,
               org_name := rd.org_name, report_id := rd.report_id,
               domain := rd.domain, total_records := rd.total_records,
               pass_count := rd.pass_count, fail_count := rd.fail_count,
               status := "processed" } := by
      rw [← hdb]
      simp only [List.find?_append, h, Option.none_or]
      simp [isDuplicateRow]
    rw [store_dmarc_report_dup db2 uid cfg rd f _ hrow, ← hrid]
  · intro uid cfg s m rd r hm hfind
    simp [ingestStep, hm, store_dmarc_report_dup s.db uid cfg rd m.insertFails r hfind]

/-- Witness for `store_dedup_amended`: against a database already holding
the tuple of `rptGoogle`, a second store changes nothing and returns the
first id, and ingesting the duplicate bumps `processed` to 1 while
`errors` and `duplicates` stay 0. -/
theorem store_dedup_amended_witness :
    (dbWithGoogle.reports.find? (isDuplicateRow "u" rptGoogle) = some rowGoogle
      ∧ store_dmarc_report dbWithGoogle "u" "cfg" rptGoogle true
          = Except.ok (dbWithGoogle, 1))
    ∧ (msgCopy1.parseOutcome = Except.ok rptGoogle
      ∧ (ingestStep "u" "cfg" (initIngestState dbWithGoogle) msgCopy1).db
          = (initIngestState dbWithGoogle).db
      ∧ (ingestStep "u" "cfg" (initIngestState dbWithGoogle) msgCopy1).processed
          = (initIngestState dbWithGoogle).processed + 1
      ∧ (ingestStep "u" "cfg" (initIngestState dbWithGoogle) msgCopy1).errors
          = (initIngestState dbWithGoogle).errors
      ∧ (ingestStep "u" "cfg" (initIngestState dbWithGoogle) msgCopy1).duplicates
          = (initIngestState dbWithGoogle).duplicates) :=
  ⟨⟨by decide,
    store_dedup_amended.1 dbWithGoogle "u" "cfg" rptGoogle true rowGoogle (by decide)⟩,
   by decide,
   store_dedup_amended.2.2 "u" "cfg" (initIngestState dbWithGoogle) msgCopy1
     rptGoogle rowGoogle (by decide) (by decide)⟩

/-- C7: in the per-message loop of `process_dmarc_ingestion`, a message
is marked read only when a report row carrying its parsed identity tuple
is present in the database at that point; a failure during parse (which
subsumes decode, since `extract_attachment` failures surface at parse)
or during store leaves the set of read messages unchanged. -/
theorem mark_read_after_persist :
    ∀ (uid cfg : String) (s : IngestState) (m : IngestMsg),
      (m.uid ∈ (ingestStep uid cfg s m).readUids →
        m.uid ∈ s.readUids ∨
          ∃ rd, m.parseOutcome = Except.ok rd ∧
            ∃ r ∈ (ingestStep uid cfg s m).db.reports,
              r.user_id = uid ∧ r.report_id = rd.report_id
                ∧ r.org_name = rd.org_name)
      ∧ (∀ e, m.parseOutcome = Except.error e →
          (ingestStep uid cfg s m).readUids = s.readUids)
      ∧ (∀ rd e, m.parseOutcome = Except.ok rd →
          store_dmarc_report s.db uid cfg rd m.insertFails = Except.error e →
          (ingestStep uid cfg s m).readUids = s.readUids) := by
  intro uid cfg s m
  cases hp : m.parseOutcome with
  | error e0 =>
      refine ⟨?_, ?_, ?_⟩
      · intro hmem
        left
        simpa [ingestStep, hp] using hmem
      · intro e he
        simp [ingestStep, hp]
      · intro rd e hrd
        exact absurd hrd (by simp)
  | ok rd =>
      cases hst : store_dmarc_report s.db uid cfg rd m.insertFails with
      | error e0 =>
          refine ⟨?_, ?_, ?_⟩
          · intro hmem
            left
            simpa [ingestStep, hp, hst] using hmem
          · intro e he
            exact absurd he (by simp)
          · intro rd2 e hrd2 hst2
            simp [ingestStep, hp, hst]
      | ok pair =>
          obtain ⟨db2, rid⟩ := pair
          refine ⟨?_, ?_, ?_⟩
          · intro hmem
            rw [show (ingestStep uid cfg s m).readUids = s.readUids ++ [m.uid] by
              simp [ingestStep, hp, hst]] at hmem
            rcases List.mem_append.mp hmem with hl | hr
            · exact Or.inl hl
            · refine Or.inr ⟨rd, rfl, ?_⟩
              have hdb : (ingestStep uid cfg s m).db = db2 := by
                simp [ingestStep, hp, hst]
              rw [hdb]
              exact store_ok_mem s.db uid cfg rd m.insertFails db2 rid hst
          · intro e he
            exact absurd he (by simp)
          · intro rd2 e hrd2 hst2
            have hrd : rd = rd2 := by injection hrd2
            rw [← hrd, hst] at hst2
            exact absurd hst2 (by simp)

/-- Witness for `mark_read_after_persist`: a freshly stored report's
message is marked read, and the tuple is found in the database; a message
with a parse failure leaves nothing marked read. -/
theorem mark_read_after_persist_witness :
    (msgCopy1.uid ∈
        (ingestStep "u" "cfg" (initIngestState emptyDatabase) msgCopy1).readUids
      → msgCopy1.uid ∈ (initIngestState emptyDatabase).readUids ∨
          ∃ rd, msgCopy1.parseOutcome = Except.ok rd ∧
            ∃ r ∈ (ingestStep "u" "cfg" (initIngestState emptyDatabase)
                msgCopy1).db.reports,
              r.user_id = "u" ∧ r.report_id = rd.report_id
                ∧ r.org_name = rd.org_name)
    ∧ (msgCopy1.uid ∈ (initIngestState emptyDatabase).readUids ∨
        ∃ rd, msgCopy1.parseOutcome = Except.ok rd ∧
          ∃ r ∈ (ingestStep "u" "cfg" (initIngestState emptyDatabase)
              msgCopy1).db.reports,
            r.user_id = "u" ∧ r.report_id = rd.report_id
              ∧ r.org_name = rd.org_name)
    ∧ (ingestStep "u" "cfg" (initIngestState emptyDatabase)
        { uid := 7, parseOutcome := Except.error "Invalid XML format" }).readUids
      = (initIngestState emptyDatabase).readUids :=
  ⟨(mark_read_after_persist "u" "cfg" (initIngestState emptyDatabase) msgCopy1).1,
   (mark_read_after_persist "u" "cfg" (initIngestState emptyDatabase) msgCopy1).1
     (by decide),
   (mark_read_after_persist "u" "cfg" (initIngestState emptyDatabase)
       { uid := 7, parseOutcome := Except.error "Invalid XML format" }).2.1
     "Invalid XML format" (by decide)⟩

/-- C3: holding the issue list, SPF analysis and DKIM analysis fixed,
`_calculate_health_score` is monotonically non-increasing in
`failure_rate`, and its result always lies in [0, 100]. -/
theorem health_score_monotone_clamped :
    ∀ (issues : List Issue) (spf : SPFAnalysis) (dkim : DKIMAnalysis)
      (fr1 fr2 : ℚ), fr1 ≤ fr2 →
      calculate_health_score fr2 issues spf dkim
        ≤ calculate_health_score fr1 issues spf dkim
      ∧ 0 ≤ calculate_health_score fr1 issues spf dkim
      ∧ calculate_health_score fr1 issues spf dkim ≤ 100 := by
  intro issues spf dkim fr1 fr2 h
  refine ⟨?_, ?_, ?_⟩
  · have hm : min (fr1 * 2) 60 ≤ min (fr2 * 2) 60 :=
      min_le_min (by linarith) le_rfl
    simp only [calculate_health_score]
    apply max_le_max le_rfl
    apply min_le_min le_rfl
    apply pyInt_mono
    split_ifs <;> linarith
  · simp only [calculate_health_score]
    exact le_max_left 0 _
  · simp only [calculate_health_score]
    exact max_le (by norm_num) (min_le_left _ _)

/-- Witness for `health_score_monotone_clamped` at failure rates 0 and
10 with no issues, a missing SPF record and no DKIM data. -/
theorem health_score_monotone_clamped_witness :
    (0 : ℚ) ≤ 10
    ∧ (calculate_health_score 10 [] spfNoRecord {}
        ≤ calculate_health_score 0 [] spfNoRecord {}
      ∧ 0 ≤ calculate_health_score 0 [] spfNoRecord {}
      ∧ calculate_health_score 0 [] spfNoRecord {} ≤ 100) :=
  ⟨by norm_num,
   health_score_monotone_clamped [] spfNoRecord {} 0 10 (by norm_num)⟩

/-- C6 counterexample: `_calculate_backoff_time(6) = 60 * 2^1 = 120`,
not 60, so the 6th consecutive failure from a fresh limiter blocks the
owner until `t6 + 120` (here times 0..5 give `some 125`), not
`t6 + base_backoff` (`some 65`). -/
theorem sixth_failure_backoff_counterexample :
    calculate_backoff_time 6 = 120
    ∧ ¬ calculate_backoff_time 6 = 60
    ∧ sixFailures.failed_attempts "owner" = 6
    ∧ sixFailures.blocked_until "owner" = some 125
    ∧ ¬ sixFailures.blocked_until "owner" = some 65 := by
  have hstate : sixFailures.failed_attempts "owner" = 6
      ∧ sixFailures.blocked_until "owner" = some 125 := by
    constructor <;>
      norm_num [sixFailures, record_attempt, initRateLimiter,
        calculate_backoff_time, max_failed_attempts, backoff_base, backoff_max]
  refine ⟨by decide, by decide, hstate.1, hstate.2, ?_⟩
  rw [hstate.2]
  norm_num

/-- C6 (amended): each recorded failure increments the consecutive
counter; once the count exceeds `max_failed_attempts = 5` the owner is
blocked until `now + min(base·2^min(count−5, 6), 3600)` — so the 6th
consecutive failure blocks for `base_backoff × 2 = 120` seconds, the 7th
for `base_backoff × 4`, doubling with each further failure up to the
3600-second cap; a single recorded success resets the counter to 0 and
clears any block. -/
theorem backoff_amended :
    (∀ (s : RateLimiterState) (uid : String) (now : ℚ),
      (record_attempt s uid false now).failed_attempts uid
        = s.failed_attempts uid + 1)
    ∧ (∀ (s : RateLimiterState) (uid : String) (now : ℚ),
      max_failed_attempts < s.failed_attempts uid + 1 →
      (record_attempt s uid false now).blocked_until uid
        = some (now + (calculate_backoff_time (s.failed_attempts uid + 1) : ℚ)))
    ∧ (∀ k, 1 ≤ k →
      calculate_backoff_time (max_failed_attempts + k)
        = min (backoff_base * 2 ^ min k 6) backoff_max)
    ∧ calculate_backoff_time 6 = 2 * backoff_base
    ∧ calculate_backoff_time 7 = 4 * backoff_base
    ∧ (∀ k, 6 ≤ k →
      calculate_backoff_time (max_failed_attempts + k) = backoff_max)
    ∧ (∀ (s : RateLimiterState) (uid : String) (now : ℚ),
      (record_attempt s uid true now).failed_attempts uid = 0
      ∧ (record_attempt s uid true now).blocked_until uid = none) := by
  refine ⟨?_, ?_, ?_, by decide, by decide, ?_, ?_⟩
  · intro s uid now
    simp only [record_attempt, Bool.false_eq_true, if_false]
    split_ifs <;> simp
  · intro s uid now hgt
    simp only [record_attempt, Bool.false_eq_true, if_false]
    rw [if_pos hgt]
    simp
  · intro k hk
    unfold calculate_backoff_time
    rw [if_neg (by omega), show max_failed_attempts + k - max_failed_attempts = k by omega]
  · intro k hk
    unfold calculate_backoff_time
    rw [if_neg (by omega)]
    have hmin : min (max_failed_attempts + k - max_failed_attempts) 6 = 6 := by
      simp [max_failed_attempts]
      omega
    rw [hmin]
    decide
  · intro s uid now
    constructor <;> simp [record_attempt]

/-- Witness for `backoff_amended`: the 6th failure from five recorded
failures at time 1000 blocks until `1000 + 120`; concrete backoff values
for the 6th, 7th and 11th failures; success clears state. -/
theorem backoff_amended_witness :
    (max_failed_attempts < fiveFailedState.failed_attempts "owner" + 1
      ∧ (record_attempt fiveFailedState "owner" false 1000).blocked_until "owner"
          = some (1000 + (calculate_backoff_time
              (fiveFailedState.failed_attempts "owner" + 1) : ℚ)))
    ∧ (1 ≤ 1 ∧ calculate_backoff_time (max_failed_attempts + 1)
        = min (backoff_base * 2 ^ min 1 6) backoff_max)
    ∧ (6 ≤ 6 ∧ calculate_backoff_time (max_failed_attempts + 6) = backoff_max)
    ∧ ((record_attempt fiveFailedState "owner" true 1000).failed_attempts "owner" = 0
      ∧ (record_attempt fiveFailedState "owner" true 1000).blocked_until "owner" = none) :=
  ⟨⟨by decide,
    backoff_amended.2.1 fiveFailedState "owner" 1000 (by decide)⟩,
   ⟨le_refl 1, backoff_amended.2.2.1 1 (le_refl 1)⟩,
   ⟨le_refl 6, backoff_amended.2.2.2.2.2.1 6 (le_refl 6)⟩,
   backoff_amended.2.2.2.2.2.2 fiveFailedState "owner" 1000⟩

/-- C8: `extract_attachment` on the concrete `zipfile`/`gzip` behaviours:
a zip holding `report.xml` yields that entry's bytes, a gzip payload
yields the inflated bytes, plain bytes pass through unchanged, a payload
that looks like a zip but fails to open falls back to the original
bytes — but a well-formed zip archive holding NO `.xml` entry makes the
function fall off the end of its `try` block and return Python `None`
(`none`), not bytes, contradicting the claim (and the function's own
`-> bytes` annotation). -/
theorem extract_attachment_zip_no_xml_returns_none :
    extract_attachment zipEntriesOf gunzipOf zipWithReport none = some xmlPayload
    ∧ extract_attachment zipEntriesOf gunzipOf gzPayload none = some xmlPayload
    ∧ extract_attachment zipEntriesOf gunzipOf xmlPayload none = some xmlPayload
    ∧ extract_attachment zipEntriesOf gunzipOf [0x50, 0x4B, 9, 9] none
        = some [0x50, 0x4B, 9, 9]
    ∧ extract_attachment zipEntriesOf gunzipOf emptyZipBytes none = none := by
  decide

/-- C9: `decrypt_credential` fails closed: a key identifier matching
neither the current key nor any retained backup key raises the
key-not-found failure; a valid key whose AES-GCM tag verification fails
raises the invalid-data failure; and any successful return implies the
key was found and the tag verified. -/
theorem decrypt_fails_closed :
    ∀ (aead : Bytes → Bytes → Bytes → Option String) (ks : KeyStore)
      (data : Bytes) (kid : String),
      ((ks.current_key_id ≠ kid ∧
          ∀ b ∈ ks.backups,
            strStartsWith b.filename ("key_" ++ kid) = false) →
        decrypt_credential aead ks data kid
          = Except.error
              ("Failed to decrypt credential: Encryption key not found for ID: " ++ kid))
      ∧ (∀ key, get_key_by_id ks kid = some key → key ≠ [] →
          aead key (data.take 12) (data.drop 12) = none →
          decrypt_credential aead ks data kid
            = Except.error "Invalid encrypted data or wrong key")
      ∧ (∀ pt, decrypt_credential aead ks data kid = Except.ok pt →
          ∃ key, get_key_by_id ks kid = some key ∧
            aead key (data.take 12) (data.drop 12) = some pt) := by
  intro aead ks data kid
  refine ⟨?_, ?_, ?_⟩
  · intro ⟨hcur, hback⟩
    have hlook : get_key_by_id ks kid = none := by
      unfold get_key_by_id
      rw [if_neg (by simpa using hcur)]
      rw [List.find?_eq_none.mpr (by intro b hb; simp [hback b hb])]
    simp [decrypt_credential, hlook]
  · intro key hk hne haead
    have hempty : key.isEmpty = false := by
      cases key with
      | nil => exact absurd rfl hne
      | cons x xs => rfl
    simp [decrypt_credential, hk, hempty, haead]
  · intro pt h
    unfold decrypt_credential at h
    cases hlook : get_key_by_id ks kid with
    | none => rw [hlook] at h; exact absurd h (by simp)
    | some key =>
        rw [hlook] at h
        dsimp only at h
        cases hempty : key.isEmpty with
        | true => rw [hempty] at h; simp at h
        | false =>
            rw [hempty] at h
            simp only [Bool.false_eq_true, if_false] at h
            cases haead : aead key (data.take 12) (data.drop 12) with
            | none => rw [haead] at h; exact absurd h (by simp)
            | some pt0 =>
                rw [haead] at h
                simp only [Except.ok.injEq] at h
                exact ⟨key, rfl, by rw [haead, h]⟩

/-- Witness for `decrypt_fails_closed`: an unknown key id fails with the
key-not-found error, and a tampered ciphertext under the current key
fails with the invalid-data error. -/
theorem decrypt_fails_closed_witness :
    ((ksOne.current_key_id ≠ "zz" ∧
        ∀ b ∈ ksOne.backups,
          strStartsWith b.filename ("key_" ++ "zz") = false)
      ∧ decrypt_credential aeadRejectAll ksOne [5, 5, 5] "zz"
          = Except.error
              ("Failed to decrypt credential: Encryption key not found for ID: " ++ "zz"))
    ∧ (get_key_by_id ksOne "k1" = some [1, 2, 3]
      ∧ decrypt_credential aeadRejectAll ksOne [5, 5, 5] "k1"
          = Except.error "Invalid encrypted data or wrong key") :=
  ⟨⟨⟨by decide, by decide⟩,
    (decrypt_fails_closed aeadRejectAll ksOne [5, 5, 5] "zz").1
      ⟨by decide, by decide⟩⟩,
   ⟨by decide,
    (decrypt_fails_closed aeadRejectAll ksOne [5, 5, 5] "k1").2.1
      [1, 2, 3] (by decide) (by decide) rfl⟩⟩

/-- C10: `is_dmarc_email` is total over its message accesses: whenever
any access raises (the checks computation ends in an error), the message
is classified as not report-bearing (`false`); when no access raises the
function returns exactly the boolean the pattern checks computed. -/
theorem is_dmarc_email_never_raises :
    ∀ (research : String → String → Bool) (m : EmailMessage),
      (∀ e, is_dmarc_email_checks research m = Except.error e →
        is_dmarc_email research m = false)
      ∧ (∀ b, is_dmarc_email_checks research m = Except.ok b →
        is_dmarc_email research m = b) := by
  intro research m
  constructor <;> intro x h <;> simp [is_dmarc_email, h]

/-- Witness for `is_dmarc_email_never_raises`: a message whose subject
header fails to decode is classified `false`. -/
theorem is_dmarc_email_never_raises_witness :
    is_dmarc_email_checks researchNone badSubjectMsg
      = Except.error "unknown encoding"
    ∧ is_dmarc_email researchNone badSubjectMsg = false :=
  ⟨rfl,
   (is_dmarc_email_never_raises researchNone badSubjectMsg).1
     "unknown encoding" rfl⟩

/-- C4: the claimed scenario — one clean stored report (failure rate 0)
for a domain with no SPF record — cannot produce any scored result in
the source: `analyze_domain_reports` calls `_analyze_spf_failures`
unconditionally (line 106), whose `SPFAnalysis(...)` constructor call
omits the required `redirects` field and raises `TypeError`, so the run
degrades to the terminal `error` result with health score 0 and status
`error` — not health 75 and status `good` as claimed.  The last two
conjuncts evaluate the scoring pipeline the claim cites on the values
the constructor call assembles: were the constructor repaired, the
scenario would score 55 (100 − 20 for the critical missing-SPF issue −
25 for the dedicated no-SPF penalty) with status `warning`, still not
75 and `good`. -/
theorem no_spf_run_raises_typeerror :
    analyze_domain_reports_exec "example.com" (Except.ok reportsOneClean)
        (Except.ok []) none noProviders
      = error_result "example.com"
          "SPFAnalysis.__init__() missing 1 required positional argument: redirects"
    ∧ (analyze_domain_reports_exec "example.com" (Except.ok reportsOneClean)
        (Except.ok []) none noProviders).health_score = 0
    ∧ (analyze_domain_reports_exec "example.com" (Except.ok reportsOneClean)
        (Except.ok []) none noProviders).status = "error"
    ∧ ¬ ((analyze_domain_reports_exec "example.com" (Except.ok reportsOneClean)
          (Except.ok []) none noProviders).health_score = 75
        ∧ (analyze_domain_reports_exec "example.com" (Except.ok reportsOneClean)
          (Except.ok []) none noProviders).status = "good")
    ∧ detect_spf_issues spfNoRecord [] = [spfMissingIssue]
    ∧ calculate_health_score 0 [spfMissingIssue] spfNoRecord
        (analyze_dkim_failures []) = 55
    ∧ determine_analysis_status 55 0 1 = "warning" := by
  have hrun : analyze_domain_reports_exec "example.com"
      (Except.ok reportsOneClean) (Except.ok []) none noProviders
      = error_result "example.com"
          "SPFAnalysis.__init__() missing 1 required positional argument: redirects" := by
    rfl
  refine ⟨hrun, by rw [hrun]; rfl, by rw [hrun]; rfl, ?_, ?_, ?_, ?_⟩
  · intro hcontra
    rw [hrun] at hcontra
    exact absurd hcontra.1 (by norm_num [error_result])
  · simp [detect_spf_issues, spfNoRecord, optStrTruthy]
  · norm_num [calculate_health_score, severity_penalty, spfMissingIssue,
      spfNoRecord, optStrTruthy, analyze_dkim_failures, dkimStep, pyInt]
  · norm_num [determine_analysis_status]

/-- C5: `analyze_domain_reports` always returns a result object and
never lets an exception propagate: a failing report fetch degrades to the
terminal `error` result (status `error`, score 0, one issue), an empty
report set yields the terminal `no_data` result (status `no_data`, score
0, exactly one informational issue), and a failing record fetch after a
non-empty report fetch also degrades to the `error` result. -/
theorem analyze_always_returns_result :
    ∀ (domain : String) (fetchReports : Except String (List StoredReport))
      (fetchRecords : Except String (List DmarcRecord)) (spf : SPFAnalysis)
      (providerOf : String → Option String),
      (∀ e, fetchReports = Except.error e →
        analyze_domain_reports domain fetchReports fetchRecords spf providerOf
            = error_result domain e
        ∧ (error_result domain e).status = "error"
        ∧ (error_result domain e).health_score = 0
        ∧ (error_result domain e).issues.length = 1)
      ∧ (fetchReports = Except.ok [] →
        analyze_domain_reports domain fetchReports fetchRecords spf providerOf
            = no_data_result domain
        ∧ (no_data_result domain).status = "no_data"
        ∧ (no_data_result domain).health_score = 0
        ∧ (no_data_result domain).issues.length = 1)
      ∧ (∀ e (reports : List StoredReport), fetchReports = Except.ok reports →
          reports ≠ [] → fetchRecords = Except.error e →
          analyze_domain_reports domain fetchReports fetchRecords spf providerOf
            = error_result domain e) := by
  intro domain fetchReports fetchRecords spf providerOf
  refine ⟨?_, ?_, ?_⟩
  · intro e he
    subst he
    exact ⟨rfl, rfl, rfl, rfl⟩
  · intro he
    subst he
    exact ⟨rfl, rfl, rfl, rfl⟩
  · intro e reports hrep hne hrec
    subst hrep
    subst hrec
    have hie : reports.isEmpty = false := by
      cases reports with
      | nil => exact absurd rfl hne
      | cons a l => rfl
    unfold analyze_domain_reports analyze_domain_reports_main
    dsimp only
    rw [hie]
    rfl

/-- Witness for `analyze_always_returns_result`: a failing fetch yields
the `error` result; an empty fetch yields the `no_data` result. -/
theorem analyze_always_returns_result_witness :
    (analyze_domain_reports "d" (Except.error "db down") (Except.ok [])
        { record := none } noProviders
      = error_result "d" "db down"
      ∧ (error_result "d" "db down").status = "error"
      ∧ (error_result "d" "db down").health_score = 0
      ∧ (error_result "d" "db down").issues.length = 1)
    ∧ (analyze_domain_reports "d"
        (Except.ok ([] : List StoredReport)) (Except.ok [])
        { record := none } noProviders
      = no_data_result "d"
      ∧ (no_data_result "d").status = "no_data"
      ∧ (no_data_result "d").health_score = 0
      ∧ (no_data_result "d").issues.length = 1) :=
  ⟨(analyze_always_returns_result "d" (Except.error "db down") (Except.ok [])
      { record := none } noProviders).1 "db down" rfl,
   (analyze_always_returns_result "d" (Except.ok []) (Except.ok [])
      { record := none } noProviders).2.1 rfl⟩

end DmarcAnalyzer
